import Mathlib

/-!
Shallow embedding of the state-evolution core of `qbyte_miner.py`
(DNA-Lang unified platform): the CCCE state, the organism state, the
organism loader/registry, the CCCE evolution engine, and the
population normalizer, together with proofs of the specified
properties.

Modelling conventions:
* Python floats are modelled as exact rationals (`ℚ`); `float('inf')`
  (which only ever arises as the value of the derived metric Ξ) is
  modelled by `⊤ : WithTop ℚ`.
* `math.sin` is modelled by an arbitrary function `sinQ : ℚ → ℚ`
  passed as a parameter: no specified property depends on its values.
* In-place mutation is modelled by explicit state passing: methods
  that mutate `self` return the updated value; the engine's
  process-wide `corrections` counter is threaded through
  `phase_conjugate_correction` and `evolve_step`.
* The registry dictionary `ecosystem : Dict[str, OrganismState]` is
  modelled as an association list (insertion order, last-write-wins
  on an existing key).
* `hashlib.sha256(...".hexdigest()[:16]` is modelled by an arbitrary
  function `hashFn : String → String`: no specified property depends
  on the hash values themselves.
* The filesystem seen by `load_organism` is modelled by an
  `Option String`: `none` means the file does not exist (or cannot
  be read), `some content` means reading it yields `content`.
-/

namespace Qbyte

/-- Universal Memory Constant `LAMBDA_PHI = 2.176435e-8` (exact rational). -/
def LAMBDA_PHI : ℚ := 2.176435e-8

/-- Consciousness emergence threshold `PHI_THRESHOLD = 7.6901`. -/
def PHI_THRESHOLD : ℚ := 7.6901

/-- Torsion-locked convergence angle `THETA_LOCK = 51.843` degrees. -/
def THETA_LOCK : ℚ := 51.843

/-- Validated hardware fidelity `BELL_FIDELITY = 0.869`. -/
def BELL_FIDELITY : ℚ := 0.869

/-- Minimum coherence for stability `COHERENCE_MIN = 0.97`. -/
def COHERENCE_MIN : ℚ := 0.97

/-- Six-Dimensional Covariant Resonance and Scalar Manifold (`CRSM6D`). -/
structure CRSM6D where
  x : ℚ
  y : ℚ
  z : ℚ
  t : ℚ
  phi : ℚ
  sigma : ℚ
deriving DecidableEq, Repr

/-- Default `CRSM6D` value: all six components `0.0`. -/
def CRSM6D.default : CRSM6D :=
  { x := 0, y := 0, z := 0, t := 0, phi := 0, sigma := 0 }

/-- Centripetal Coherence Convergence Engine state (`CCCEState`).
`xi_val` is a Python float that can be `float('inf')`, hence `WithTop ℚ`. -/
structure CCCEState where
  lambda_val : ℚ
  phi_val : ℚ
  gamma_val : ℚ
  xi_val : WithTop ℚ
  theta_val : ℚ
deriving DecidableEq, Repr

/-- Default `CCCEState`: the dataclass field defaults
`lambda_val = 0.97`, `phi_val = 7.6901`, `gamma_val = 0.001`,
`xi_val = 0.0`, `theta_val = 51.843`. -/
def CCCEState.default : CCCEState :=
  { lambda_val := 0.97, phi_val := 7.6901, gamma_val := 0.001,
    xi_val := (0 : ℚ), theta_val := 51.843 }

/-- `CCCEState.compute_xi`: recompute the CCCE metric `Ξ = ΛΦ/Γ` and store
it in `xi_val` (the Python method mutates `self.xi_val` and returns it;
here the updated state is returned, the stored `xi_val` being the
returned value). -/
def CCCEState.compute_xi (s : CCCEState) : CCCEState :=
  if s.gamma_val < 1e-10 then
    { s with xi_val := ⊤ }
  else
    { s with xi_val := ((s.lambda_val * s.phi_val) / s.gamma_val : ℚ) }

/-- `CCCEState.is_stable`: convergence stability test
`xi_val > 0.1 and abs(theta_val - THETA_LOCK) < 0.01`, reading the
stored `xi_val` as-is. -/
def CCCEState.is_stable (s : CCCEState) : Bool :=
  decide (((0.1 : ℚ) : WithTop ℚ) < s.xi_val) &&
    decide (|s.theta_val - THETA_LOCK| < 0.01)

/-- Living organism state (`OrganismState`). `generation` is a Python int
counter, modelled as `ℕ`. -/
structure OrganismState where
  organism_id : String
  genesis_hash : String
  generation : ℕ
  crsm : CRSM6D
  ccce : CCCEState
  coherence : ℚ
  entropy : ℚ
  consciousness_phi : ℚ
  qbytes : ℚ
  status : String
deriving DecidableEq, Repr

/-- Construct an `OrganismState` from `organism_id`, `genesis_hash` and
`generation`, all other fields taking the dataclass defaults
(`coherence = 0.97`, `entropy = 0.03`, `consciousness_phi = 7.6901`,
`qbytes = 0.0`, `status = "INITIALIZING"`, default `crsm` and `ccce`). -/
def OrganismState.mkDefault (organism_id genesis_hash : String)
    (generation : ℕ) : OrganismState :=
  { organism_id := organism_id, genesis_hash := genesis_hash,
    generation := generation, crsm := CRSM6D.default,
    ccce := CCCEState.default, coherence := 0.97, entropy := 0.03,
    consciousness_phi := 7.6901, qbytes := 0, status := "INITIALIZING" }

/-- CCCE engine mutable state: the process-wide phase-conjugate
correction counter `corrections` (the engine also owns a `CCCEState`
and a static regime table; only `corrections` is touched by the
functions specified here, the regime table is configuration text that
is never read). -/
structure CCCEEngine where
  state : CCCEState
  corrections : ℕ
deriving DecidableEq, Repr

/-- `CCCEEngine.compute_xi`: the engine-level CCCE metric
`Ξ = ΛΦ/Γ` — `+∞` if `gamma_val < 1e-10`, else
`(lambda_val * phi_val) / gamma_val`. The Python method reads and
writes nothing on `self`, so it is embedded as a pure function. -/
def CCCEEngine.compute_xi (lambda_val phi_val gamma_val : ℚ) : WithTop ℚ :=
  if gamma_val < 1e-10 then ⊤
  else ((lambda_val * phi_val) / gamma_val : ℚ)

/-- `CCCEEngine.phase_conjugate_correction`: if `|error| < 1e-10` return
`0.0` without counting; otherwise return `error - 1.0/error` (the
Python ternary's `error != 0` guard included) and increment the
engine's `corrections` counter. Returns the updated engine and the
corrected value. -/
def CCCEEngine.phase_conjugate_correction (eng : CCCEEngine) (error : ℚ) :
    CCCEEngine × ℚ :=
  if |error| < 1e-10 then (eng, 0)
  else
    let corrected := if error ≠ 0 then error - 1 / error else 0
    ({ eng with corrections := eng.corrections + 1 }, corrected)

/-- `CCCEEngine.evolve_step`: execute one evolution step on one organism,
in the source's order — fractal contraction of `consciousness_phi`,
CRSM geometric update (`t += dt`, `phi = sin(t·ΛΦ·1e6)·Φ`,
`sigma += entropy·0.001`), QPU angle relaxation of `ccce.theta_val`,
generation increment, conditional phase-conjugate entropy correction,
CCCE state refresh (with `compute_xi`), and conditional qBytes mining.
`sinQ` models `math.sin`. Returns the updated engine (its correction
counter may have advanced) and the evolved organism. -/
def CCCEEngine.evolve_step (sinQ : ℚ → ℚ) (eng : CCCEEngine)
    (organism : OrganismState) (dt : ℚ) : CCCEEngine × OrganismState :=
  let phi_new := LAMBDA_PHI * organism.consciousness_phi - organism.entropy * 0.01
  let o := { organism with consciousness_phi := max 0 phi_new }
  let o := { o with crsm := { o.crsm with t := o.crsm.t + dt } }
  let o := { o with crsm :=
    { o.crsm with phi := sinQ (o.crsm.t * LAMBDA_PHI * 1e6) * PHI_THRESHOLD } }
  let o := { o with crsm :=
    { o.crsm with sigma := o.crsm.sigma + o.entropy * 0.001 } }
  let theta_error := o.ccce.theta_val - THETA_LOCK
  let o := { o with ccce :=
    { o.ccce with theta_val := o.ccce.theta_val - theta_error * 0.1 } }
  let o := { o with generation := o.generation + 1 }
  let corrStep : CCCEEngine × OrganismState :=
    if o.entropy > 0.1 then
      let r := eng.phase_conjugate_correction o.entropy
      (r.1, { o with entropy := |r.2| })
    else (eng, o)
  let eng := corrStep.1
  let o := corrStep.2
  let o := { o with ccce :=
    { o.ccce with lambda_val := o.coherence, phi_val := o.consciousness_phi,
                  gamma_val := o.entropy } }
  let o := { o with ccce := o.ccce.compute_xi }
  let o :=
    if o.coherence > (0.9 : ℚ) then
      { o with qbytes := o.qbytes + o.coherence * LAMBDA_PHI * 1e7 }
    else o
  (eng, o)

/-- Registry of live organisms: the `ecosystem` dictionary keyed by
`genesis_hash`, modelled as an association list in insertion order. -/
abbrev Ecosystem := List (String × OrganismState)

/-- Dictionary assignment `ecosystem[key] = organism`: replace the value
at an existing key, otherwise append the new binding. -/
def Ecosystem.setKey (eco : Ecosystem) (key : String)
    (o : OrganismState) : Ecosystem :=
  if (eco.map Prod.fst).contains key then
    eco.map (fun p => if p.1 = key then (key, o) else p)
  else
    eco ++ [(key, o)]

namespace OrganismLoader

/-- `OrganismLoader.check_lambda_symmetry`: the Λ-symmetry check —
`coherence >= COHERENCE_MIN`. -/
def check_lambda_symmetry (organism : OrganismState) : Bool :=
  decide (COHERENCE_MIN ≤ organism.coherence)

/-- `OrganismLoader.symmetrize`: the Λ-symmetrization repair —
`coherence ← (coherence + COHERENCE_MIN) / 2`, mirror into
`ccce.lambda_val`, then recompute `xi`. -/
def symmetrize (organism : OrganismState) : OrganismState :=
  let o := { organism with
    coherence := (organism.coherence + COHERENCE_MIN) / 2 }
  let o := { o with ccce := { o.ccce with lambda_val := o.coherence } }
  { o with ccce := o.ccce.compute_xi }

/-- `OrganismLoader.load_organism`: admission. `content = none` models a
missing (or unreadable) source file: the loader reports the failure to
its logger and returns `none`, leaving the registry unchanged.
Otherwise the organism is constructed with generation 0 and the
dataclass defaults, its `genesis_hash` is `hashFn content` (modelling
the truncated SHA-256 hex digest), the symmetrization repair is applied
when the Λ-symmetry check fails, and it is registered in the ecosystem
under its `genesis_hash`. Returns the updated registry and the admitted
organism (or `none` on failure). -/
def load_organism (hashFn : String → String) (eco : Ecosystem)
    (filestem : String) (content : Option String) :
    Ecosystem × Option OrganismState :=
  match content with
  | none => (eco, none)
  | some c =>
    let genesis_hash := hashFn c
    let organism := OrganismState.mkDefault filestem genesis_hash 0
    let organism :=
      if ¬ check_lambda_symmetry organism then symmetrize organism
      else organism
    (eco.setKey genesis_hash organism, some organism)

/-- `OrganismLoader.compute_ecosystem_lambda`: the average coherence Λ
across the ecosystem, `0.0` when the ecosystem is empty. -/
def compute_ecosystem_lambda (eco : Ecosystem) : ℚ :=
  if eco.isEmpty then 0
  else (eco.map (fun p => p.2.coherence)).sum / eco.length

/-- `OrganismLoader.enforce_ecosystem_symmetry`: the population
normalizer — compute the mean coherence once, then pull every
organism's coherence 10% of the way toward it
(`coherence -= 0.1 * (coherence - mean)`), mirroring the result into
`ccce.lambda_val` and recomputing `xi`. -/
def enforce_ecosystem_symmetry (eco : Ecosystem) : Ecosystem :=
  let lambda_total := compute_ecosystem_lambda eco
  eco.map (fun p =>
    let organism := p.2
    let delta := organism.coherence - lambda_total
    let o := { organism with coherence := organism.coherence - 0.1 * delta }
    let o := { o with ccce := { o.ccce with lambda_val := o.coherence } }
    (p.1, { o with ccce := o.ccce.compute_xi }))

end OrganismLoader

/-- Coherence components of a registry, in registry order. -/
def coherences (eco : Ecosystem) : List ℚ :=
  eco.map (fun p => p.2.coherence)

/-- Concrete two-entity registry with coherences `0.5` and `1.0`
(all other fields default), used to exercise the population
normalizer. -/
def ecoPair : Ecosystem :=
  [("h1", { OrganismState.mkDefault "a" "h1" 0 with coherence := 0.5 }),
   ("h2", { OrganismState.mkDefault "b" "h2" 0 with coherence := 1 })]

/-- Recomputing the CCCE metric is idempotent: `compute_xi` changes only
`xi_val`, so a second recomputation takes the same branch and stores the
same value. -/
theorem CCCEState.compute_xi_idem (s : CCCEState) :
    s.compute_xi.compute_xi = s.compute_xi := by
  unfold CCCEState.compute_xi
  split_ifs <;> rfl

/-- Closed form of one evolution step: the sequential mutations of
`evolve_step` assembled into a single record value, with the entropy
correction, the Ξ refresh and the qBytes gate expressed as
conditionals on the incoming organism's fields. -/
theorem CCCEEngine.evolve_step_eq (sinQ : ℚ → ℚ) (eng : CCCEEngine)
    (o : OrganismState) (dt : ℚ) :
    CCCEEngine.evolve_step sinQ eng o dt =
      ({ eng with corrections :=
          if 0.1 < o.entropy then eng.corrections + 1 else eng.corrections },
       { o with
          generation := o.generation + 1,
          consciousness_phi :=
            max 0 (LAMBDA_PHI * o.consciousness_phi - o.entropy * 0.01),
          crsm := { o.crsm with
            t := o.crsm.t + dt,
            phi := sinQ ((o.crsm.t + dt) * LAMBDA_PHI * 1e6) * PHI_THRESHOLD,
            sigma := o.crsm.sigma + o.entropy * 0.001 },
          entropy :=
            if 0.1 < o.entropy then |o.entropy - 1 / o.entropy| else o.entropy,
          ccce :=
            { lambda_val := o.coherence,
              phi_val :=
                max 0 (LAMBDA_PHI * o.consciousness_phi - o.entropy * 0.01),
              gamma_val :=
                if 0.1 < o.entropy then |o.entropy - 1 / o.entropy|
                else o.entropy,
              xi_val :=
                if (if 0.1 < o.entropy then |o.entropy - 1 / o.entropy|
                    else o.entropy) < 1e-10 then ⊤
                else
                  ((o.coherence *
                      max 0 (LAMBDA_PHI * o.consciousness_phi -
                        o.entropy * 0.01) /
                    (if 0.1 < o.entropy then |o.entropy - 1 / o.entropy|
                     else o.entropy) : ℚ) : WithTop ℚ),
              theta_val :=
                o.ccce.theta_val - (o.ccce.theta_val - THETA_LOCK) * 0.1 },
          qbytes :=
            if 0.9 < o.coherence then
              o.qbytes + o.coherence * LAMBDA_PHI * 1e7
            else o.qbytes }) := by
  by_cases he : 0.1 < o.entropy
  · have hpos : (0 : ℚ) < o.entropy := lt_trans (by norm_num) he
    have h1 : ¬ |o.entropy| < 1e-10 := by
      rw [abs_of_pos hpos]; push_neg; linarith
    have h2 : o.entropy ≠ 0 := ne_of_gt hpos
    simp [CCCEEngine.evolve_step, CCCEEngine.phase_conjugate_correction,
      CCCEState.compute_xi, he, h1, h2]
    split_ifs <;> rfl
  · simp [CCCEEngine.evolve_step, CCCEEngine.phase_conjugate_correction,
      CCCEState.compute_xi, he]
    split_ifs <;> rfl

/-- C10: a single evolution step never modifies the organism's
`coherence` field — for every sine model, engine, organism and `dt`,
the coherence after `evolve_step` equals the coherence before it. -/
theorem evolve_step_preserves_coherence (sinQ : ℚ → ℚ) (eng : CCCEEngine)
    (o : OrganismState) (dt : ℚ) :
    ((CCCEEngine.evolve_step sinQ eng o dt).2).coherence = o.coherence := by
  unfold CCCEEngine.evolve_step
  dsimp only
  split_ifs <;> simp [CCCEState.compute_xi]

/-- C6: a single evolution step updates the lock angle to
`lockAngle - 0.1 * (lockAngle - THETA_LOCK)`, so the distance of the
lock angle to `THETA_LOCK = 51.843` after the step is exactly `0.9`
times the distance before it. -/
theorem evolve_step_angle_relaxation (sinQ : ℚ → ℚ) (eng : CCCEEngine)
    (o : OrganismState) (dt : ℚ) :
    ((CCCEEngine.evolve_step sinQ eng o dt).2).ccce.theta_val =
      o.ccce.theta_val - 0.1 * (o.ccce.theta_val - THETA_LOCK) ∧
    |((CCCEEngine.evolve_step sinQ eng o dt).2).ccce.theta_val - THETA_LOCK| =
      0.9 * |o.ccce.theta_val - THETA_LOCK| := by
  have hθ : ((CCCEEngine.evolve_step sinQ eng o dt).2).ccce.theta_val =
      o.ccce.theta_val - (o.ccce.theta_val - THETA_LOCK) * 0.1 := by
    unfold CCCEEngine.evolve_step
    dsimp only
    split_ifs <;> dsimp only [CCCEState.compute_xi] <;> split_ifs <;> rfl
  constructor
  · rw [hθ]; ring
  · rw [hθ]
    have : o.ccce.theta_val - (o.ccce.theta_val - THETA_LOCK) * 0.1 - THETA_LOCK =
        (0.9 : ℚ) * (o.ccce.theta_val - THETA_LOCK) := by ring
    rw [this, abs_mul]
    norm_num

/-- C1: one evolution step leaves the organism's entropy (and the
engine's correction counter) unchanged when `entropy ≤ 0.1`; when
`entropy > 0.1` it replaces the entropy with `|entropy - 1/entropy|`
and increments the engine's process-wide correction counter by
exactly 1. -/
theorem evolve_step_entropy_correction (sinQ : ℚ → ℚ) (eng : CCCEEngine)
    (o : OrganismState) (dt : ℚ) :
    (o.entropy ≤ 0.1 →
      (CCCEEngine.evolve_step sinQ eng o dt).2.entropy = o.entropy ∧
      (CCCEEngine.evolve_step sinQ eng o dt).1.corrections =
        eng.corrections) ∧
    (0.1 < o.entropy →
      (CCCEEngine.evolve_step sinQ eng o dt).2.entropy =
        |o.entropy - 1 / o.entropy| ∧
      (CCCEEngine.evolve_step sinQ eng o dt).1.corrections =
        eng.corrections + 1) := by
  rw [CCCEEngine.evolve_step_eq]
  constructor
  · intro h
    simp [not_lt.mpr h]
  · intro h
    simp [h]

/-- Witness for C1: entropy `0.05` (below the `0.1` gate) survives one
step bit-for-bit, without touching the correction counter; entropy
`0.5` becomes `|0.5 - 1/0.5| = 1.5` and the counter goes from `0` to
`1`. -/
theorem evolve_step_entropy_correction_witness :
    ((0.05 : ℚ) ≤ 0.1 ∧
     (CCCEEngine.evolve_step (fun _ => 0)
        { state := CCCEState.default, corrections := 0 }
        { OrganismState.mkDefault "w" "h" 0 with entropy := 0.05 }
        0.1).2.entropy = 0.05 ∧
     (CCCEEngine.evolve_step (fun _ => 0)
        { state := CCCEState.default, corrections := 0 }
        { OrganismState.mkDefault "w" "h" 0 with entropy := 0.05 }
        0.1).1.corrections = 0) ∧
    ((0.1 : ℚ) < 0.5 ∧
     (CCCEEngine.evolve_step (fun _ => 0)
        { state := CCCEState.default, corrections := 0 }
        { OrganismState.mkDefault "w" "h" 0 with entropy := 0.5 }
        0.1).2.entropy = 1.5 ∧
     (CCCEEngine.evolve_step (fun _ => 0)
        { state := CCCEState.default, corrections := 0 }
        { OrganismState.mkDefault "w" "h" 0 with entropy := 0.5 }
        0.1).1.corrections = 1) := by
  have hlow := (evolve_step_entropy_correction (fun _ => 0)
    { state := CCCEState.default, corrections := 0 }
    { OrganismState.mkDefault "w" "h" 0 with entropy := 0.05 } 0.1).1
    (by norm_num)
  have hhigh := (evolve_step_entropy_correction (fun _ => 0)
    { state := CCCEState.default, corrections := 0 }
    { OrganismState.mkDefault "w" "h" 0 with entropy := 0.5 } 0.1).2
    (by norm_num)
  refine ⟨⟨by norm_num, ?_, hlow.2⟩, by norm_num, ?_, hhigh.2⟩
  · exact hlow.1
  · rw [hhigh.1]; norm_num

/-- C4: one evolution step adds exactly
`coherence * LAMBDA_PHI * 1e7` to the accumulated qBytes when
`coherence > 0.9`, leaves qBytes exactly unchanged when
`coherence ≤ 0.9`, and in consequence never decreases qBytes. -/
theorem evolve_step_yield_gate (sinQ : ℚ → ℚ) (eng : CCCEEngine)
    (o : OrganismState) (dt : ℚ) :
    ((0.9 : ℚ) < o.coherence →
      (CCCEEngine.evolve_step sinQ eng o dt).2.qbytes =
        o.qbytes + o.coherence * LAMBDA_PHI * 1e7) ∧
    (o.coherence ≤ 0.9 →
      (CCCEEngine.evolve_step sinQ eng o dt).2.qbytes = o.qbytes) ∧
    o.qbytes ≤ (CCCEEngine.evolve_step sinQ eng o dt).2.qbytes := by
  have hA : (0.9 : ℚ) < o.coherence →
      (CCCEEngine.evolve_step sinQ eng o dt).2.qbytes =
        o.qbytes + o.coherence * LAMBDA_PHI * 1e7 := by
    intro h; rw [CCCEEngine.evolve_step_eq]; simp [h]
  have hB : o.coherence ≤ 0.9 →
      (CCCEEngine.evolve_step sinQ eng o dt).2.qbytes = o.qbytes := by
    intro h; rw [CCCEEngine.evolve_step_eq]; simp [not_lt.mpr h]
  refine ⟨hA, hB, ?_⟩
  by_cases h : (0.9 : ℚ) < o.coherence
  · rw [hA h]
    have hc : (0 : ℚ) < o.coherence := lt_trans (by norm_num) h
    have hL : (0 : ℚ) < LAMBDA_PHI := by unfold LAMBDA_PHI; norm_num
    nlinarith
  · rw [hB (not_lt.mp h)]

/-- Witness for C4: at coherence `0.95` one step adds exactly
`0.95 * LAMBDA_PHI * 1e7` to the (initially zero) qBytes; at coherence
`0.5` the qBytes stay exactly `0`. -/
theorem evolve_step_yield_gate_witness :
    ((0.9 : ℚ) < 0.95 ∧
     (CCCEEngine.evolve_step (fun _ => 0)
        { state := CCCEState.default, corrections := 0 }
        { OrganismState.mkDefault "w" "h" 0 with coherence := 0.95 }
        0.1).2.qbytes = 0.95 * LAMBDA_PHI * 1e7) ∧
    ((0.5 : ℚ) ≤ 0.9 ∧
     (CCCEEngine.evolve_step (fun _ => 0)
        { state := CCCEState.default, corrections := 0 }
        { OrganismState.mkDefault "w" "h" 0 with coherence := 0.5 }
        0.1).2.qbytes = 0) := by
  have hm := (evolve_step_yield_gate (fun _ => 0)
    { state := CCCEState.default, corrections := 0 }
    { OrganismState.mkDefault "w" "h" 0 with coherence := 0.95 } 0.1).1
    (by norm_num)
  have hz := (evolve_step_yield_gate (fun _ => 0)
    { state := CCCEState.default, corrections := 0 }
    { OrganismState.mkDefault "w" "h" 0 with coherence := 0.5 } 0.1).2.1
    (by norm_num)
  refine ⟨⟨by norm_num, ?_⟩, by norm_num, ?_⟩
  · rw [hm]; norm_num [OrganismState.mkDefault]
  · rw [hz]; rfl

/-- C7: the generation counter advances by exactly 1 on every evolution
step, for any starting organism; and for the just-admitted default
organism (coherence `0.97`, entropy `0.03`, consciousness `7.6901`,
generation `0`), two steps with `dt = 0.1` give generation exactly `2`
with entropy still exactly `0.03` (the `0.1` correction threshold is
never crossed). -/
theorem evolve_step_generation :
    (∀ (sinQ : ℚ → ℚ) (eng : CCCEEngine) (o : OrganismState) (dt : ℚ),
      (CCCEEngine.evolve_step sinQ eng o dt).2.generation =
        o.generation + 1) ∧
    (∀ (sinQ : ℚ → ℚ) (eng : CCCEEngine),
      (CCCEEngine.evolve_step sinQ
        (CCCEEngine.evolve_step sinQ eng
          (OrganismState.mkDefault "genesis" "hash" 0) 0.1).1
        (CCCEEngine.evolve_step sinQ eng
          (OrganismState.mkDefault "genesis" "hash" 0) 0.1).2
        0.1).2.generation = 2 ∧
      (CCCEEngine.evolve_step sinQ
        (CCCEEngine.evolve_step sinQ eng
          (OrganismState.mkDefault "genesis" "hash" 0) 0.1).1
        (CCCEEngine.evolve_step sinQ eng
          (OrganismState.mkDefault "genesis" "hash" 0) 0.1).2
        0.1).2.entropy = 0.03) := by
  constructor
  · intro sinQ eng o dt
    rw [CCCEEngine.evolve_step_eq]
  · intro sinQ eng
    simp only [CCCEEngine.evolve_step_eq]
    norm_num [OrganismState.mkDefault]

/-- C8: admission from a missing (or unreadable) source file returns no
organism and leaves the registry completely unchanged; the failure is a
value returned to the caller, not an exception. -/
theorem load_organism_missing_file (hashFn : String → String)
    (eco : Ecosystem) (filestem : String) :
    OrganismLoader.load_organism hashFn eco filestem none = (eco, none) :=
  rfl

/-- C2: the engine-level metric `compute_xi c p g` is `+∞` exactly when
`g < 1e-10` and is exactly `(c * p) / g` otherwise; it is a pure
function of its three arguments (the embedding is a function, matching
the Python method that reads and writes no state). -/
theorem compute_xi_cases (c p g : ℚ) :
    (g < 1e-10 → CCCEEngine.compute_xi c p g = ⊤) ∧
    (¬ g < 1e-10 →
      CCCEEngine.compute_xi c p g = (((c * p) / g : ℚ) : WithTop ℚ)) := by
  constructor <;> intro h <;> simp [CCCEEngine.compute_xi, h]

/-- Witness for C2: at decoherence `0` (below the `1e-10` floor) the
metric is `+∞`; at the default state `(0.97, 7.6901, 0.001)` it is
exactly `7459.397`. -/
theorem compute_xi_cases_witness :
    CCCEEngine.compute_xi 0.97 7.6901 0 = ⊤ ∧
    CCCEEngine.compute_xi 0.97 7.6901 0.001 = ((7459.397 : ℚ) : WithTop ℚ) := by
  constructor
  · exact (compute_xi_cases 0.97 7.6901 0).1 (by norm_num)
  · rw [(compute_xi_cases 0.97 7.6901 0.001).2 (by norm_num)]
    norm_num

/-- C9: the ecosystem mean coherence is `0` on the empty registry and
the arithmetic mean (sum of coherences over entity count) on every
non-empty registry; both cases are total (no division-by-zero fault:
the empty case never divides). -/
theorem compute_ecosystem_lambda_mean :
    OrganismLoader.compute_ecosystem_lambda [] = 0 ∧
    ∀ eco : Ecosystem, eco ≠ [] →
      OrganismLoader.compute_ecosystem_lambda eco =
        (coherences eco).sum / eco.length := by
  constructor
  · rfl
  · intro eco h
    simp [OrganismLoader.compute_ecosystem_lambda, coherences,
      List.isEmpty_iff, h]

/-- Per-entry effect of the population normalizer on the coherence
components: every coherence `c` becomes `c - 0.1 * (c - mean)`, the
mean being taken once, before any entity is updated. -/
theorem coherences_enforce (eco : Ecosystem) :
    coherences (OrganismLoader.enforce_ecosystem_symmetry eco) =
      (coherences eco).map
        (fun c =>
          c - 0.1 * (c - OrganismLoader.compute_ecosystem_lambda eco)) := by
  unfold coherences OrganismLoader.enforce_ecosystem_symmetry
  rw [List.map_map, List.map_map]
  rfl

/-- Ecosystem mean coherence depends only on the list of coherences. -/
theorem lambda_eq_coherences (eco : Ecosystem) :
    OrganismLoader.compute_ecosystem_lambda eco =
      if coherences eco = [] then 0
      else (coherences eco).sum / (coherences eco).length := by
  rcases eq_or_ne eco [] with h | h
  · subst h; rfl
  · simp [OrganismLoader.compute_ecosystem_lambda, coherences, h,
      List.isEmpty_iff]

/-- C3: each call to the population normalizer maps every entity's
coherence `c` to `c - 0.1 * (c - mean)` with the mean computed once at
the start of the call (so each entity's gap to that mean shrinks by
exactly 10% per call); on the two-entity registry with coherences
`{0.5, 1.0}` and no other mutation, `n` calls give coherences exactly
`3/4 ∓ 1/4 * (9/10)^n`, converging geometrically to the mean `0.75`. -/
theorem enforce_symmetry_damped_consensus :
    (∀ eco : Ecosystem,
      coherences (OrganismLoader.enforce_ecosystem_symmetry eco) =
        (coherences eco).map
          (fun c =>
            c - 0.1 * (c - OrganismLoader.compute_ecosystem_lambda eco))) ∧
    (∀ n : ℕ,
      coherences (OrganismLoader.enforce_ecosystem_symmetry^[n] ecoPair) =
        [3/4 - 1/4 * (9/10 : ℚ)^n, 3/4 + 1/4 * (9/10 : ℚ)^n]) := by
  refine ⟨coherences_enforce, ?_⟩
  intro n
  induction n with
  | zero =>
    norm_num [ecoPair, coherences, OrganismState.mkDefault]
  | succ n ih =>
    rw [Function.iterate_succ_apply', coherences_enforce, ih]
    have hmean : OrganismLoader.compute_ecosystem_lambda
        (OrganismLoader.enforce_ecosystem_symmetry^[n] ecoPair) = 3 / 4 := by
      rw [lambda_eq_coherences, ih, if_neg (by simp)]
      norm_num
    rw [hmean]
    simp only [List.map_cons, List.map_nil, List.cons.injEq, and_true]
    constructor <;> ring

/-- Successful admission: with readable content, `load_organism` admits
the default-constructed organism unrepaired (its default coherence
`0.97` passes the Λ-symmetry check, so `symmetrize` is skipped) and
registers it under its genesis hash. -/
theorem load_organism_some (hashFn : String → String) (eco : Ecosystem)
    (filestem content : String) :
    OrganismLoader.load_organism hashFn eco filestem (some content) =
      (eco.setKey (hashFn content)
         (OrganismState.mkDefault filestem (hashFn content) 0),
       some (OrganismState.mkDefault filestem (hashFn content) 0)) := by
  have hchk : OrganismLoader.check_lambda_symmetry
      (OrganismState.mkDefault filestem (hashFn content) 0) = true := by
    simp [OrganismLoader.check_lambda_symmetry, OrganismState.mkDefault,
      COHERENCE_MIN]
  unfold OrganismLoader.load_organism
  simp [hchk]

/-- Counterexample to C5: a freshly admitted organism's stored `xi_val`
is the dataclass default `0.0`, not the value
`0.97 * 7.6901 / 0.001 = 7459.397` computed from its initial
coherence, consciousness and decoherence — admission with the default
coherence `0.97` passes the Λ-symmetry check, so `symmetrize` (the only
admission-time recomputation of Ξ) is skipped. The stale value is
observable: `is_stable` on the stored state is `false`, while
`is_stable` after recomputing Ξ is `true`. -/
theorem fresh_organism_stale_xi_counterexample :
    ((OrganismLoader.load_organism (fun _ => "deadbeefdeadbeef") []
        "genesis" (some "ORGANISM")).2.map (fun o => o.ccce.xi_val)) =
      some ((0 : ℚ) : WithTop ℚ) ∧
    ((0 : ℚ) : WithTop ℚ) ≠ ((0.97 * 7.6901 / 0.001 : ℚ) : WithTop ℚ) ∧
    ((OrganismLoader.load_organism (fun _ => "deadbeefdeadbeef") []
        "genesis" (some "ORGANISM")).2.map
          (fun o => o.ccce.is_stable)) = some false ∧
    ((OrganismLoader.load_organism (fun _ => "deadbeefdeadbeef") []
        "genesis" (some "ORGANISM")).2.map
          (fun o => o.ccce.compute_xi.is_stable)) = some true := by
  simp only [load_organism_some]
  refine ⟨?_, ?_, ?_, ?_⟩
  · simp [OrganismState.mkDefault, CCCEState.default]
  · intro h
    rw [WithTop.coe_eq_coe] at h
    norm_num at h
  · simp [OrganismState.mkDefault, CCCEState.default, CCCEState.is_stable,
      THETA_LOCK]
    norm_num
  · simp [OrganismState.mkDefault, CCCEState.default, CCCEState.is_stable,
      CCCEState.compute_xi, THETA_LOCK]
    norm_num

/-- C5 (amended): the Ξ metric is fresh at every read inside the
evolution loop — after `evolve_step` and after
`enforce_ecosystem_symmetry` the stored `xi_val` is a fixed point of
`compute_xi`, i.e. exactly the value recomputed from the current
coherence, consciousness and decoherence — but a freshly admitted
organism carries the default `xi_val = 0.0` (its coherence `0.97`
passes the Λ-symmetry check, so the symmetrization that would
recompute Ξ is skipped), not a value computed from its initial
fields. -/
theorem xi_freshness_amended :
    (∀ (sinQ : ℚ → ℚ) (eng : CCCEEngine) (o : OrganismState) (dt : ℚ),
      ((CCCEEngine.evolve_step sinQ eng o dt).2.ccce).compute_xi =
        (CCCEEngine.evolve_step sinQ eng o dt).2.ccce) ∧
    (∀ (eco : Ecosystem) (p : String × OrganismState),
      p ∈ OrganismLoader.enforce_ecosystem_symmetry eco →
      p.2.ccce.compute_xi = p.2.ccce) ∧
    (∀ (hashFn : String → String) (eco : Ecosystem)
        (filestem content : String),
      ((OrganismLoader.load_organism hashFn eco filestem
          (some content)).2.map (fun o => o.ccce.xi_val)) =
        some ((0 : ℚ) : WithTop ℚ)) := by
  refine ⟨?_, ?_, ?_⟩
  · intro sinQ eng o dt
    rw [CCCEEngine.evolve_step_eq]
    dsimp only [CCCEState.compute_xi]
    split_ifs <;> rfl
  · intro eco p hp
    unfold OrganismLoader.enforce_ecosystem_symmetry at hp
    obtain ⟨q, _, rfl⟩ := List.mem_map.mp hp
    exact CCCEState.compute_xi_idem _
  · intro hashFn eco filestem content
    rw [load_organism_some]
    simp [OrganismState.mkDefault, CCCEState.default]

/-- Witness for C5 (amended): the single entry of the normalized
one-organism registry carries a Ξ that recomputation does not change. -/
theorem xi_freshness_amended_witness :
    ((OrganismLoader.enforce_ecosystem_symmetry
        [("h", OrganismState.mkDefault "a" "h" 0)]).get
      ⟨0, by simp [OrganismLoader.enforce_ecosystem_symmetry]⟩).2.ccce.compute_xi =
    ((OrganismLoader.enforce_ecosystem_symmetry
        [("h", OrganismState.mkDefault "a" "h" 0)]).get
      ⟨0, by simp [OrganismLoader.enforce_ecosystem_symmetry]⟩).2.ccce :=
  xi_freshness_amended.2.1 _ _ (List.get_mem _ _ _)

/-- Witness for C9: on a concrete one-entity registry the mean coherence
is that entity's coherence `0.97`. -/
theorem compute_ecosystem_lambda_mean_witness :
    OrganismLoader.compute_ecosystem_lambda
      [("h", OrganismState.mkDefault "a" "h" 0)] = 0.97 := by
  rw [compute_ecosystem_lambda_mean.2
    [("h", OrganismState.mkDefault "a" "h" 0)] (by simp)]
  norm_num [coherences, OrganismState.mkDefault]

end Qbyte
